import Mathlib

/-!
Shallow embedding of `src/vdom/vtext.rs` from the ruukh virtual-DOM library:
the text/comment leaf node (`VText`) together with its PATCH / REMOVE /
REORDER / INFO protocol, over a small model of the host document.

Modelling choices:
* A live document node is a natural-number identifier.  The host document is
  a `Dom` state: a counter handing out fresh identifiers, a store mapping
  each created node to its kind and content, and the child list of the one
  parent node that all operations in this component target.
* Rust panics (`expect`, `unwrap`, `unreachable!`) become the `Outcome.fatal`
  constructor; a propagated `JsValue` platform error becomes `Outcome.err`,
  carrying the state as it is at the point of failure (Rust's `?` returns the
  error while `self` and the document persist in the caller).
* The `PhantomData<RCTX>` render-context parameter carries no runtime data
  and is dropped; the unused `Shared<RCTX>` / `MessageSender` arguments of
  the patch protocol are dropped likewise.
* `remove`, `reorder` and the info query take the leaf by shared reference
  in the source (`&self`), so here they consume the leaf and return only the
  new document state: by construction they cannot modify the leaf's fields.
-/

/-- The data carried by a live document node created by this component:
whether it is a comment node, and its textual content. -/
structure NodeData where
  isComment : Bool
  content : String
deriving Repr, DecidableEq

/-- Model of the host document as seen by the leaf component: a counter
producing fresh node identifiers, a store mapping every created node to its
data, and the child list of the single parent node that all the operations
target. -/
structure Dom where
  fresh : Nat
  store : List (Nat × NodeData)
  children : List Nat
deriving Repr, DecidableEq

/-- Associative lookup of a node's data in the store. -/
def lookupNode : List (Nat × NodeData) → Nat → Option NodeData
  | [], _ => none
  | (k, v) :: rest, n => if k = n then some v else lookupNode rest n

/-- Data of a node in the document. -/
def Dom.lookup (d : Dom) (n : Nat) : Option NodeData :=
  lookupNode d.store n

/-- Embedding of `document.create_text_node`: allocate a fresh, detached
text node holding the given content. -/
def Dom.createTextNode (d : Dom) (content : String) : Nat × Dom :=
  (d.fresh, ⟨d.fresh + 1, (d.fresh, ⟨false, content⟩) :: d.store, d.children⟩)

/-- Embedding of `document.create_comment`: allocate a fresh, detached
comment node holding the given content. -/
def Dom.createComment (d : Dom) (content : String) : Nat × Dom :=
  (d.fresh, ⟨d.fresh + 1, (d.fresh, ⟨true, content⟩) :: d.store, d.children⟩)

/-- Insert `node` immediately before the first occurrence of `ref` in a
child list (appending at the end if `ref` does not occur, a case
`Dom.insertBefore` rules out before calling this). -/
def insertBeforeList : List Nat → Nat → Nat → List Nat
  | [], node, _ => [node]
  | c :: rest, node, ref =>
    if c = ref then node :: c :: rest else c :: insertBeforeList rest node ref

/-- Embedding of `Node::insert_before` on the parent: fails with a platform
error (DOM `NotFoundError`) when the reference node is not a child of the
parent; otherwise moves `node` to immediately before `ref`. -/
def Dom.insertBefore (d : Dom) (node ref : Nat) : Except Unit Dom :=
  if ref ∈ d.children then
    Except.ok ⟨d.fresh, d.store, insertBeforeList (d.children.erase node) node ref⟩
  else
    Except.error ()

/-- Embedding of `Node::append_child` on the parent: moves `node` to the end
of the child list. -/
def Dom.appendChild (d : Dom) (node : Nat) : Except Unit Dom :=
  Except.ok ⟨d.fresh, d.store, d.children.erase node ++ [node]⟩

/-- Embedding of `Node::remove_child` on the parent: fails with a platform
error (DOM `NotFoundError`) when `node` is not a child of the parent. -/
def Dom.removeChild (d : Dom) (node : Nat) : Except Unit Dom :=
  if node ∈ d.children then
    Except.ok ⟨d.fresh, d.store, d.children.erase node⟩
  else
    Except.error ()

/-- Embedding of `Node::set_text_content`: infallible in-place update of a
node's textual content; the node's kind and its position are untouched. -/
def Dom.setTextContent (d : Dom) (node : Nat) (content : String) : Dom :=
  ⟨d.fresh,
   d.store.map fun p => if p.1 = node then (p.1, ⟨p.2.isComment, content⟩) else p,
   d.children⟩

/-- Result of an operation of the leaf component: a fatal panic (`expect`,
`unwrap`, `unreachable!` in the source), a propagated platform error
(`JsValue`, modelled as `Unit`) together with the state at the point of
failure, or success. -/
inductive Outcome (α : Type) where
  | fatal (msg : String) : Outcome α
  | err (e : Unit) (st : α) : Outcome α
  | ok (st : α) : Outcome α
deriving Repr, DecidableEq

/-- Whether an outcome is a success. -/
def Outcome.isOk {α : Type} : Outcome α → Bool
  | Outcome.ok _ => true
  | _ => false

/-- Embedding of `VText<RCTX>`: the representation of text/comment in the
virtual dom tree.  The `node` field is the spec's `attached_node`: the live
document reference, `none` until the leaf is first successfully patched in.
The auto-generated field accessor `VTextSpec.node` is exactly the source's
`DOMInfo::node` query (`self.node.as_ref()`). -/
structure VTextSpec where
  content : String
  is_comment : Bool
  node : Option Nat
deriving Repr, DecidableEq

/-- For a patch outcome, the `attached_node` field of the resulting leaf
when the patch succeeded, and `none` otherwise. -/
def Outcome.patchedNode : Outcome (VTextSpec × Dom) → Option (Option Nat)
  | Outcome.ok (v, _) => some v.node
  | _ => none

/-- Embedding of `VText::text`: create a textual VText. -/
def VTextSpec.text (content : String) : VTextSpec :=
  ⟨content, false, none⟩

/-- Embedding of `VText::comment`: create a comment VText. -/
def VTextSpec.comment (content : String) : VTextSpec :=
  ⟨content, true, none⟩

/-- Embedding of `impl Display for VText`: `<!--` ++ content ++ `-->` for a
comment, the raw content for text. -/
def VTextSpec.display (v : VTextSpec) : String :=
  if v.is_comment then "<!--" ++ v.content ++ "-->" else v.content

/-- Embedding of `VText::patch_new`: create a live node of the leaf's kind
carrying the leaf's content, insert it before `next` (or append it at the
end), and on success record it as the attached node.  On a platform error
the leaf is unchanged and the document is as it was at the failure point
(the created node exists but is detached). -/
def VTextSpec.patch_new (self : VTextSpec) (d : Dom) (next : Option Nat) :
    Outcome (VTextSpec × Dom) :=
  let created :=
    if self.is_comment then d.createComment self.content else d.createTextNode self.content
  match next with
  | some nxt =>
    match created.2.insertBefore created.1 nxt with
    | Except.ok d2 => Outcome.ok (⟨self.content, self.is_comment, some created.1⟩, d2)
    | Except.error e => Outcome.err e (self, created.2)
  | none =>
    match created.2.appendChild created.1 with
    | Except.ok d2 => Outcome.ok (⟨self.content, self.is_comment, some created.1⟩, d2)
    | Except.error e => Outcome.err e (self, created.2)

/-- Embedding of `DOMRemove::remove` for `VText`: remove the attached node
from the parent; panics (`expect`) when the leaf was never attached.  The
leaf itself is taken by shared reference in the source and never modified,
so only the new document state is returned. -/
def VTextSpec.remove (self : VTextSpec) (d : Dom) : Outcome Dom :=
  match self.node with
  | none => Outcome.fatal "The old node is expected to be attached to the DOM"
  | some n =>
    match d.removeChild n with
    | Except.ok d1 => Outcome.ok d1
    | Except.error e => Outcome.err e d

/-- Embedding of `DOMPatch::patch` for `VText`: reconcile this leaf against
an optional previous leaf.  The previous leaf is only read (its node
reference is cloned, the source never writes through `old`), so it is taken
by value here and not returned. -/
def VTextSpec.patch (self : VTextSpec) (old : Option VTextSpec) (d : Dom)
    (next : Option Nat) : Outcome (VTextSpec × Dom) :=
  match old with
  | some o =>
    if self.is_comment = o.is_comment then
      match o.node with
      | none => Outcome.fatal "The old node is expected to be attached to the DOM"
      | some oldNode =>
        let d1 :=
          if self.content ≠ o.content then d.setTextContent oldNode self.content else d
        Outcome.ok (⟨self.content, self.is_comment, some oldNode⟩, d1)
    else
      match o.remove d with
      | Outcome.fatal m => Outcome.fatal m
      | Outcome.err e d1 => Outcome.err e (self, d1)
      | Outcome.ok d1 => self.patch_new d1 next
  | none => self.patch_new d next

/-- Embedding of `DOMReorder::reorder` for `VText`: move the already
attached node to immediately before `next` (or to the end); panics
(`unwrap`) when the leaf was never attached. -/
def VTextSpec.reorder (self : VTextSpec) (d : Dom) (next : Option Nat) : Outcome Dom :=
  match self.node with
  | none => Outcome.fatal "called Option::unwrap() on a None value"
  | some n =>
    match next with
    | some nxt =>
      match d.insertBefore n nxt with
      | Except.ok d1 => Outcome.ok d1
      | Except.error e => Outcome.err e d
    | none =>
      match d.appendChild n with
      | Except.ok d1 => Outcome.ok d1
      | Except.error e => Outcome.err e d

/-- Embedding of `DOMPatch::render_walk` for `VText`: unconditionally
`unreachable!` — a leaf has nothing to render. -/
def VTextSpec.render_walk (_self : VTextSpec) (_d : Dom) (_next : Option Nat) :
    Outcome (VTextSpec × Dom) :=
  Outcome.fatal "There is nothing to render in a VText"

/-! ### Helper lemmas -/

/-- Placement lemma for `insertBeforeList`: when `ref` occurs in the list,
the new node lands immediately before the first occurrence of `ref`. -/
theorem insertBeforeList_eq (cs : List Nat) (node ref : Nat) (h : ref ∈ cs) :
    ∃ l1 l2, cs = l1 ++ ref :: l2 ∧ ref ∉ l1 ∧
      insertBeforeList cs node ref = l1 ++ node :: ref :: l2 := by
  induction cs with
  | nil => cases h
  | cons c rest ih =>
    by_cases hc : c = ref
    · subst hc
      exact ⟨[], rest, rfl, by simp, by simp [insertBeforeList]⟩
    · have hr : ref ∈ rest := by
        rcases List.mem_cons.mp h with h1 | h1
        · exact absurd h1.symm hc
        · exact h1
      obtain ⟨l1, l2, h1, h2, h3⟩ := ih hr
      refine ⟨c :: l1, l2, by simp [h1], ?_, ?_⟩
      · simp only [List.mem_cons, not_or]
        exact ⟨fun he => hc he.symm, h2⟩
      · simp [insertBeforeList, hc, h3]

/-- Characterization of a successful `patch_new`: the leaf's content and
kind are preserved, the freshly allocated identifier `d.fresh` becomes the
attached node, the store gains exactly that node with the leaf's kind and
content, and the child list receives it before `next` or at the end. -/
theorem patch_new_ok_spec (self : VTextSpec) (d : Dom) (next : Option Nat)
    (self' : VTextSpec) (d' : Dom)
    (hok : self.patch_new d next = Outcome.ok (self', d')) :
    self' = ⟨self.content, self.is_comment, some d.fresh⟩ ∧
    d'.fresh = d.fresh + 1 ∧
    d'.store = (d.fresh, ⟨self.is_comment, self.content⟩) :: d.store ∧
    ((next = none ∧ d'.children = d.children.erase d.fresh ++ [d.fresh]) ∨
      (∃ nxt, next = some nxt ∧ nxt ∈ d.children ∧
        d'.children = insertBeforeList (d.children.erase d.fresh) d.fresh nxt)) := by
  cases hC : self.is_comment <;> cases next
  · simp [VTextSpec.patch_new, hC, Dom.createTextNode, Dom.appendChild] at hok
    obtain ⟨h1, h2⟩ := hok
    subst h1
    subst h2
    exact ⟨rfl, rfl, rfl, Or.inl ⟨rfl, rfl⟩⟩
  · rename_i nxt
    by_cases hmem : nxt ∈ d.children
    · simp [VTextSpec.patch_new, hC, Dom.createTextNode, Dom.insertBefore, hmem] at hok
      obtain ⟨h1, h2⟩ := hok
      subst h1
      subst h2
      exact ⟨rfl, rfl, rfl, Or.inr ⟨nxt, rfl, hmem, rfl⟩⟩
    · simp [VTextSpec.patch_new, hC, Dom.createTextNode, Dom.insertBefore, hmem] at hok
  · simp [VTextSpec.patch_new, hC, Dom.createComment, Dom.appendChild] at hok
    obtain ⟨h1, h2⟩ := hok
    subst h1
    subst h2
    exact ⟨rfl, rfl, rfl, Or.inl ⟨rfl, rfl⟩⟩
  · rename_i nxt
    by_cases hmem : nxt ∈ d.children
    · simp [VTextSpec.patch_new, hC, Dom.createComment, Dom.insertBefore, hmem] at hok
      obtain ⟨h1, h2⟩ := hok
      subst h1
      subst h2
      exact ⟨rfl, rfl, rfl, Or.inr ⟨nxt, rfl, hmem, rfl⟩⟩
    · simp [VTextSpec.patch_new, hC, Dom.createComment, Dom.insertBefore, hmem] at hok

/-- Characterization of a failing `patch_new`: the leaf comes back
unchanged, and the failure can only stem from inserting before a reference
node that is not a child of the parent. -/
theorem patch_new_err_spec (self : VTextSpec) (d : Dom) (next : Option Nat)
    (e : Unit) (self' : VTextSpec) (d' : Dom)
    (herr : self.patch_new d next = Outcome.err e (self', d')) :
    self' = self ∧ ∃ nxt, next = some nxt ∧ nxt ∉ d.children := by
  cases hC : self.is_comment <;> cases next
  · simp [VTextSpec.patch_new, hC, Dom.createTextNode, Dom.appendChild] at herr
  · rename_i nxt
    by_cases hmem : nxt ∈ d.children
    · simp [VTextSpec.patch_new, hC, Dom.createTextNode, Dom.insertBefore, hmem] at herr
    · exact ⟨by
        simp [VTextSpec.patch_new, hC, Dom.createTextNode, Dom.insertBefore, hmem] at herr
        exact herr.1.symm, nxt, rfl, hmem⟩
  · simp [VTextSpec.patch_new, hC, Dom.createComment, Dom.appendChild] at herr
  · rename_i nxt
    by_cases hmem : nxt ∈ d.children
    · simp [VTextSpec.patch_new, hC, Dom.createComment, Dom.insertBefore, hmem] at herr
    · exact ⟨by
        simp [VTextSpec.patch_new, hC, Dom.createComment, Dom.insertBefore, hmem] at herr
        exact herr.1.symm, nxt, rfl, hmem⟩

/-! ### Claim theorems -/

/-- C1: with `previous` absent, `patch` creates a comment node when
`is_comment` holds and a text node otherwise, carrying the leaf's content;
it inserts the node immediately before `next_sibling` when one is given and
appends it at the end otherwise; and on success it records the new live
node as the leaf's `attached_node`. -/
theorem patch_fresh_insertion (self : VTextSpec) (d : Dom) (next : Option Nat)
    (hfresh : d.fresh ∉ d.children) (self' : VTextSpec) (d' : Dom)
    (hok : self.patch none d next = Outcome.ok (self', d')) :
    self'.node = some d.fresh ∧
    self'.content = self.content ∧
    self'.is_comment = self.is_comment ∧
    d'.lookup d.fresh = some ⟨self.is_comment, self.content⟩ ∧
    (next = none → d'.children = d.children ++ [d.fresh]) ∧
    (∀ nxt, next = some nxt → ∃ l1 l2, d.children = l1 ++ nxt :: l2 ∧ nxt ∉ l1 ∧
      d'.children = l1 ++ d.fresh :: nxt :: l2) := by
  have hp : self.patch_new d next = Outcome.ok (self', d') := hok
  obtain ⟨h1, h2, h3, h4⟩ := patch_new_ok_spec self d next self' d' hp
  subst h1
  have herase : d.children.erase d.fresh = d.children := List.erase_of_not_mem hfresh
  refine ⟨rfl, rfl, rfl, ?_, ?_, ?_⟩
  · simp [Dom.lookup, h3, lookupNode]
  · rintro rfl
    rcases h4 with ⟨-, hch⟩ | ⟨nxt, hne, -, -⟩
    · rw [hch, herase]
    · cases hne
  · rintro nxt rfl
    rcases h4 with ⟨hne, -⟩ | ⟨nxt', hne, hmem, hch⟩
    · cases hne
    · cases hne
      rw [herase] at hch
      obtain ⟨l1, l2, hsplit, hnotmem, hins⟩ :=
        insertBeforeList_eq d.children d.fresh nxt hmem
      exact ⟨l1, l2, hsplit, hnotmem, by rw [hch, hins]⟩

/-- Witness for C1: patching a fresh text leaf into an empty parent records
node 0 as its attached node. -/
theorem patch_fresh_insertion_witness :
    (⟨"x", false, some 0⟩ : VTextSpec).node = some 0 :=
  (patch_fresh_insertion (VTextSpec.text "x") ⟨0, [], []⟩ none (by simp)
    ⟨"x", false, some 0⟩ ⟨1, [(0, ⟨false, "x"⟩)], [0]⟩ rfl).1

/-- C2: with `previous` present, attached and of the same kind, `patch`
reuses the previous live node (the new leaf's `attached_node` becomes that
node; no node is created, replaced or moved — the document's counter, child
list, and store size are untouched); the text content is mutated in place
exactly when the new content differs, and nothing at all is mutated when
the contents are equal. -/
theorem patch_same_kind_update (self o : VTextSpec) (d : Dom) (next : Option Nat)
    (n : Nat) (hno : o.node = some n) (hk : self.is_comment = o.is_comment) :
    (self.content = o.content →
      self.patch (some o) d next =
        Outcome.ok (⟨self.content, self.is_comment, some n⟩, d)) ∧
    (self.content ≠ o.content →
      self.patch (some o) d next =
        Outcome.ok (⟨self.content, self.is_comment, some n⟩,
          d.setTextContent n self.content)) ∧
    (d.setTextContent n self.content).children = d.children ∧
    (d.setTextContent n self.content).fresh = d.fresh ∧
    (d.setTextContent n self.content).store.length = d.store.length := by
  refine ⟨fun hc => ?_, fun hc => ?_, rfl, rfl, by simp [Dom.setTextContent]⟩
  · simp [VTextSpec.patch, hk, hno, hc]
  · simp [VTextSpec.patch, hk, hno, hc]

/-- Witness for C2: updating text "a" to "b" over its previous leaf yields
a single in-place content mutation on the reused node 0. -/
theorem patch_same_kind_update_witness :
    (⟨"b", false, none⟩ : VTextSpec).patch (some ⟨"a", false, some 0⟩)
        ⟨1, [(0, ⟨false, "a"⟩)], [0]⟩ none =
      Outcome.ok (⟨"b", false, some 0⟩,
        Dom.setTextContent ⟨1, [(0, ⟨false, "a"⟩)], [0]⟩ 0 "b") :=
  (patch_same_kind_update ⟨"b", false, none⟩ ⟨"a", false, some 0⟩
    ⟨1, [(0, ⟨false, "a"⟩)], [0]⟩ none 0 rfl rfl).2.1 (by decide)

/-- C3: with `previous` present, attached and of a different kind, `patch`
first removes the previous live node from the parent (after which that node
is no longer a child), and only then runs the fresh-insertion logic
`patch_new` on the resulting document. -/
theorem patch_kind_change_remove_then_insert (self o : VTextSpec) (d : Dom)
    (next : Option Nat) (n : Nat) (hno : o.node = some n)
    (hk : self.is_comment ≠ o.is_comment) (hmem : n ∈ d.children)
    (hnd : d.children.Nodup) :
    o.remove d = Outcome.ok ⟨d.fresh, d.store, d.children.erase n⟩ ∧
    n ∉ d.children.erase n ∧
    self.patch (some o) d next =
      self.patch_new ⟨d.fresh, d.store, d.children.erase n⟩ next := by
  have hrem : o.remove d = Outcome.ok ⟨d.fresh, d.store, d.children.erase n⟩ := by
    simp [VTextSpec.remove, hno, Dom.removeChild, hmem]
  refine ⟨hrem, ?_, ?_⟩
  · intro hmem2
    exact absurd rfl ((List.Nodup.mem_erase_iff hnd).mp hmem2).1
  · simp [VTextSpec.patch, hk, hrem]

/-- Witness for C3: patching a text leaf over an attached comment leaf
removes the comment node first and then defers to the fresh insertion. -/
theorem patch_kind_change_remove_then_insert_witness :
    (VTextSpec.text "b").patch (some ⟨"a", true, some 0⟩)
        ⟨1, [(0, ⟨true, "a"⟩)], [0]⟩ none =
      (VTextSpec.text "b").patch_new ⟨1, [(0, ⟨true, "a"⟩)], []⟩ none :=
  (patch_kind_change_remove_then_insert (VTextSpec.text "b") ⟨"a", true, some 0⟩
    ⟨1, [(0, ⟨true, "a"⟩)], [0]⟩ none 0 rfl (by decide) (by decide) (by decide)).2.2

/-- C4: on a leaf whose `attached_node` is unset, `remove`, `reorder`, and
the matching-kind update branch of `patch` all panic with a consistency
error; none of them returns success or silently no-ops. -/
theorem unattached_operations_fatal (v : VTextSpec) (d : Dom) (next : Option Nat)
    (hn : v.node = none) :
    v.remove d = Outcome.fatal "The old node is expected to be attached to the DOM" ∧
    v.reorder d next = Outcome.fatal "called Option::unwrap() on a None value" ∧
    (∀ s : VTextSpec, s.is_comment = v.is_comment →
      s.patch (some v) d next =
        Outcome.fatal "The old node is expected to be attached to the DOM") := by
  refine ⟨?_, ?_, fun s hs => ?_⟩
  · simp [VTextSpec.remove, hn]
  · simp [VTextSpec.reorder, hn]
  · simp [VTextSpec.patch, hs, hn]

/-- Witness for C4: removing a never-inserted text leaf panics. -/
theorem unattached_operations_fatal_witness :
    (VTextSpec.text "a").remove ⟨0, [], []⟩ =
      Outcome.fatal "The old node is expected to be attached to the DOM" :=
  (unattached_operations_fatal (VTextSpec.text "a") ⟨0, [], []⟩ none rfl).1

/-- C5: a leaf's `attached_node` is set exactly by a successful insertion:
both constructors leave it unset, a failing fresh insertion leaves the
leaf's `attached_node` exactly as it was, and a successful fresh insertion
sets it to the newly created node.  (`remove`, `reorder` and the info query
take the leaf by shared reference in the source, so they can never set or
clear the field; the embedding reflects this by returning no leaf.) -/
theorem attached_node_iff_patched (c : String) (self : VTextSpec) (d : Dom)
    (next : Option Nat) :
    (VTextSpec.text c).node = none ∧
    (VTextSpec.comment c).node = none ∧
    (∀ e self' d', self.patch none d next = Outcome.err e (self', d') →
      self'.node = self.node) ∧
    (∀ self' d', self.patch none d next = Outcome.ok (self', d') →
      self'.node = some d.fresh) := by
  refine ⟨rfl, rfl, fun e self' d' herr => ?_, fun self' d' hok => ?_⟩
  · obtain ⟨h1, -⟩ := patch_new_err_spec self d next e self' d' herr
    rw [h1]
  · obtain ⟨h1, -, -, -⟩ := patch_new_ok_spec self d next self' d' hok
    rw [h1]

/-- Witness for C5: a failing insertion (reference node 7 is not a child)
leaves the leaf's `attached_node` unset; a fresh text leaf starts unset. -/
theorem attached_node_iff_patched_witness :
    (VTextSpec.text "b").node = none ∧ (VTextSpec.text "b").node = none :=
  ⟨(attached_node_iff_patched "b" (VTextSpec.text "b") ⟨0, [], []⟩ (some 7)).1,
   (attached_node_iff_patched "b" (VTextSpec.text "b") ⟨0, [], []⟩ (some 7)).2.2.1
     () (VTextSpec.text "b") ⟨1, [(0, ⟨false, "b"⟩)], []⟩ rfl⟩

/-- Counterexample to C6 as stated: a call to `patch` with `previous`
present and attached (node 0) whose kind differs from the new leaf's
returns a platform error (the removal of node 0 fails because it is not a
child of the parent), so the fresh-insertion path is not the only path of
`patch` that may return a platform error. -/
theorem patch_with_previous_can_err :
    (⟨"b", true, some 0⟩ : VTextSpec).node = some 0 ∧
    (VTextSpec.text "a").patch (some ⟨"b", true, some 0⟩)
        ⟨1, [(0, ⟨true, "b"⟩)], []⟩ none =
      Outcome.err () (VTextSpec.text "a", ⟨1, [(0, ⟨true, "b"⟩)], []⟩) :=
  ⟨rfl, rfl⟩

/-- C6 (amended): when `previous` is present, attached, and of the same
kind as the new leaf, `patch` returns success, never a platform error (the
in-place content update uses the infallible set-text-content primitive);
platform errors can arise only from the fresh-insertion logic and from the
kind-change removal. -/
theorem patch_same_kind_never_errs (self o : VTextSpec) (d : Dom)
    (next : Option Nat) (n : Nat) (hno : o.node = some n)
    (hk : self.is_comment = o.is_comment) :
    (self.patch (some o) d next).isOk = true := by
  by_cases hc : self.content = o.content <;>
    simp [VTextSpec.patch, hk, hno, hc, Outcome.isOk]

/-- Witness for C6: a same-kind update over an attached previous leaf
succeeds. -/
theorem patch_same_kind_never_errs_witness :
    ((⟨"a", false, none⟩ : VTextSpec).patch (some ⟨"a", false, some 0⟩)
        ⟨1, [(0, ⟨false, "a"⟩)], [0]⟩ none).isOk = true :=
  patch_same_kind_never_errs ⟨"a", false, none⟩ ⟨"a", false, some 0⟩
    ⟨1, [(0, ⟨false, "a"⟩)], [0]⟩ none 0 rfl rfl

/-- C7: the display serialization is a pure function of content and kind:
a comment leaf displays as "<!--" ++ content ++ "-->", a text leaf displays
its content verbatim; in particular the two constructors display as the
spec's literal examples demand. -/
theorem display_serialization (v : VTextSpec) (c : String) :
    (v.is_comment = true → v.display = "<!--" ++ v.content ++ "-->") ∧
    (v.is_comment = false → v.display = v.content) ∧
    (VTextSpec.text c).display = c ∧
    (VTextSpec.comment c).display = "<!--" ++ c ++ "-->" := by
  refine ⟨fun h => ?_, fun h => ?_, ?_, ?_⟩ <;>
    simp [VTextSpec.display, VTextSpec.text, VTextSpec.comment, *]

/-- Witness for C7: a comment leaf with content "x" displays as
"<!--x-->". -/
theorem display_serialization_witness :
    (VTextSpec.comment "x").display = "<!--" ++ "x" ++ "-->" :=
  (display_serialization (VTextSpec.comment "x") "y").1 rfl

/-- C8: invoking the child-render-walk operation on a leaf is fatal for
every leaf and every argument tuple: it unconditionally aborts with the
unreachable message, never returns success, and carries no mutated state. -/
theorem render_walk_always_fatal (self : VTextSpec) (d : Dom) (next : Option Nat) :
    self.render_walk d next =
      Outcome.fatal "There is nothing to render in a VText" :=
  rfl

/-- C9: for an attached leaf, `remove` detaches the live node from the
parent and leaves every field of the leaf unchanged (the source takes the
leaf by shared reference, which the embedding mirrors by not returning a
leaf at all): after the successful remove, the info query still returns the
same, now detached, live-node reference. -/
theorem remove_preserves_leaf_fields (v : VTextSpec) (d : Dom) (n : Nat)
    (hn : v.node = some n) (hmem : n ∈ d.children) (hnd : d.children.Nodup) :
    v.remove d = Outcome.ok ⟨d.fresh, d.store, d.children.erase n⟩ ∧
    n ∉ d.children.erase n ∧
    v.node = some n := by
  refine ⟨by simp [VTextSpec.remove, hn, Dom.removeChild, hmem], ?_, hn⟩
  intro hmem2
  exact absurd rfl ((List.Nodup.mem_erase_iff hnd).mp hmem2).1

/-- Witness for C9: removing an attached comment leaf detaches node 1 and
the leaf still reports node 1. -/
theorem remove_preserves_leaf_fields_witness :
    (⟨"c", true, some 1⟩ : VTextSpec).remove ⟨2, [(1, ⟨true, "c"⟩)], [1]⟩ =
      Outcome.ok ⟨2, [(1, ⟨true, "c"⟩)], []⟩ :=
  (remove_preserves_leaf_fields ⟨"c", true, some 1⟩ ⟨2, [(1, ⟨true, "c"⟩)], [1]⟩ 1
    rfl (by decide) (by decide)).1

/-- C10: after a successful same-kind patch the previous leaf is untouched
(the source only reads it: the node reference is cloned, not moved), and
the new leaf's recorded node is exactly the previous leaf's `attached_node`,
so the info query on the old and on the new leaf answers identically. -/
theorem patch_update_preserves_old_leaf (self o : VTextSpec) (d : Dom)
    (next : Option Nat) (n : Nat) (hno : o.node = some n)
    (hk : self.is_comment = o.is_comment) :
    (self.patch (some o) d next).patchedNode = some o.node := by
  by_cases hc : self.content = o.content <;>
    simp [VTextSpec.patch, hk, hno, hc, Outcome.patchedNode]

/-- Witness for C10: a no-op same-kind patch hands the old leaf's node 3 to
the new leaf unchanged. -/
theorem patch_update_preserves_old_leaf_witness :
    ((⟨"hey", true, none⟩ : VTextSpec).patch (some ⟨"hey", true, some 3⟩)
        ⟨4, [(3, ⟨true, "hey"⟩)], [3]⟩ none).patchedNode = some (some 3) :=
  patch_update_preserves_old_leaf ⟨"hey", true, none⟩ ⟨"hey", true, some 3⟩
    ⟨4, [(3, ⟨true, "hey"⟩)], [3]⟩ none 3 rfl rfl
